import Mathlib

/-!
Shallow embedding of `src/gsmmodem/modem.py` (class `GsmModem`, class
`IncomingCall`, classes `Sms`/`ReceivedSms`).

Conventions of the embedding:
* Response lines are `String`s without newline characters (the serial
  transport hands the modem's output to the code already split into lines).
* Python's five module-level regular expressions (`CM_ERROR_REGEX`,
  `CSQ_REGEX`, `CLIP_REGEX`, `CMTI_REGEX`, `CMGR_SM_DELIVER_REGEX`) are
  deterministic on newline-free input (every bounded character class in them
  excludes the delimiter that follows it), so each is embedded as a
  recursive-descent function on `List Char` that returns the captured groups.
* Exceptions become `Except`/`Option` results; commands written to the
  modem are returned explicitly as lists of command strings.
-/

namespace GsmModem

/-- Python's `\s` character class (`[ \t\n\r\f\v]`, ASCII semantics of the
Python 2 `re` module used by the source). -/
def isSpaceChar (c : Char) : Bool :=
  c == ' ' || c == '\t' || c == '\n' || c == '\r' || c == '\x0b' || c == '\x0c'

/-- Value of a digit string, as computed by Python's `int()` on a `\d+` capture. -/
def digitsToNat (ds : List Char) : Nat :=
  ds.foldl (fun acc c => acc * 10 + (c.toNat - (('0').toNat))) 0

/-- `startsWithChars pat s` is true when `pat` is a prefix of `s`. -/
def startsWithChars : List Char → List Char → Bool
  | [], _ => true
  | _ :: _, [] => false
  | c :: cs, d :: ds => c == d && startsWithChars cs ds

/-- `containsChars pat s` is true when `pat` occurs as a contiguous substring
of `s`; embeds Python's `pat in s` test on strings. -/
def containsChars (pat : List Char) : List Char → Bool
  | [] => pat.isEmpty
  | d :: ds => startsWithChars pat (d :: ds) || containsChars pat ds

/-- Python's substring test `pat in s`. -/
def containsStr (s pat : String) : Bool :=
  containsChars pat.data s.data

/-- Consume an expected literal prefix; `none` when the input does not start
with it. -/
def dropPrefixChars : List Char → List Char → Option (List Char)
  | [], s => some s
  | _ :: _, [] => none
  | c :: cs, d :: ds => if d = c then dropPrefixChars cs ds else none

/-- Consume one expected character. -/
def expectChar (c : Char) : List Char → Option (List Char)
  | [] => none
  | d :: ds => if d = c then some ds else none

/-- Consume the optional leading `+` of the `CLIP_REGEX` number group
(`\+{0,1}`), returning the consumed characters and the rest. -/
def splitPlus (s : List Char) : List Char × List Char :=
  match s with
  | [] => ([], [])
  | c :: rest => if c = '+' then ([c], rest) else ([], c :: rest)

/-- Error kind captured by `CM_ERROR_REGEX`'s group 1 (`CM[ES]`). -/
inductive ErrKind where
  | CME
  | CMS
deriving DecidableEq

/-- `CommandError` of `gsmmodem.exceptions`: raised either bare
(`CommandError()`) or with the captured type and numeric code
(`CommandError(errorType, int(errorCode))`). -/
inductive CommandError where
  | generic
  | typed (kind : ErrKind) (code : Nat)
deriving DecidableEq

/-- `InvalidStateException` of `gsmmodem.exceptions` (carries its message). -/
structure InvalidStateException where
  msg : String
deriving DecidableEq

/-- `CM_ERROR_REGEX = r'^\+(CM[ES]) ERROR: (\d+)$'`: returns (kind, code). -/
def cmErrorMatchChars (s : List Char) : Option (ErrKind × Nat) :=
  match dropPrefixChars (['+', 'C', 'M']) s with
  | none => none
  | some s =>
    match s with
    | [] => none
    | c :: s =>
      let k? : Option ErrKind :=
        if c = 'E' then some .CME else if c = 'S' then some .CMS else none
      match k? with
      | none => none
      | some k =>
        match dropPrefixChars ([' ', 'E', 'R', 'R', 'O', 'R', ':', ' ']) s with
        | none => none
        | some s =>
          let d := s.takeWhile Char.isDigit
          let rest := s.dropWhile Char.isDigit
          if d.isEmpty then none
          else if rest.isEmpty then some (k, digitsToNat d) else none

/-- String form of `CM_ERROR_REGEX.match`. -/
def cmErrorMatch (s : String) : Option (ErrKind × Nat) :=
  cmErrorMatchChars s.data

/-- `CSQ_REGEX = r'^\+CSQ:\s*(\d+),'` (a prefix match): returns the strength. -/
def csqMatchChars (s : List Char) : Option Nat :=
  match dropPrefixChars (['+', 'C', 'S', 'Q', ':']) s with
  | none => none
  | some s =>
    let s := s.dropWhile isSpaceChar
    let d := s.takeWhile Char.isDigit
    let rest := s.dropWhile Char.isDigit
    if d.isEmpty then none
    else
      match rest with
      | [] => none
      | c :: _ => if c = ',' then some (digitsToNat d) else none

/-- String form of `CSQ_REGEX.match`. -/
def csqMatch (s : String) : Option Nat :=
  csqMatchChars s.data

/-- `"(\+{0,1}\d+)",` — the quoted caller number of `CLIP_REGEX` (group 1)
and the comma after it: returns the captured group and the rest of the
input. -/
def parseQuotedNumber (s : List Char) : Option (List Char × List Char) :=
  match expectChar ('\x22') s with
  | none => none
  | some s =>
    let ps := splitPlus s
    let d := ps.2.takeWhile Char.isDigit
    let s := ps.2.dropWhile Char.isDigit
    if d.isEmpty then none
    else
      match expectChar ('\x22') s with
      | none => none
      | some s =>
        match expectChar (',') s with
        | none => none
        | some s => some (ps.1 ++ d, s)

/-- `\d+,` — the type-of-number field of `CLIP_REGEX` and the comma after
it. -/
def parseDigitsComma (s : List Char) : Option (List Char) :=
  let t := s.takeWhile Char.isDigit
  let s := s.dropWhile Char.isDigit
  if t.isEmpty then none
  else
    match expectChar (',') s with
    | none => none
    | some s => some s

/-- `[^,]*,` — one ignored structural field of `CLIP_REGEX` and the comma
after it. -/
def parseFieldComma (s : List Char) : Option (List Char) :=
  let s := s.dropWhile (fun c => c != ',')
  match expectChar (',') s with
  | none => none
  | some s => some s

/-- `("([^"]+)"|,.*)$` — the final alternation of `CLIP_REGEX`: a non-empty
quoted name whose closing quote ends the line (group 3 captured), or a
field starting with a comma (group 3 unset, Python's `group(3)` is `None`).
The alternatives do not overlap, and neither can consume an empty quoted
name `""`. -/
def parseNameTail (s : List Char) : Option (Option (List Char)) :=
  match s with
  | [] => none
  | c :: rest =>
    if c = '\x22' then
      let nm := rest.takeWhile (fun x => x != '\x22')
      let s2 := rest.dropWhile (fun x => x != '\x22')
      if nm.isEmpty then none
      else if s2 = ['\x22'] then some (some nm) else none
    else if c = ',' then some none
    else none

/-- `CLIP_REGEX = r'^\+CLIP:\s*"(\+{0,1}\d+)",\d+,[^,]*,[^,]*,("([^"]+)"|,.*)$'`:
returns (group 1, group 3) — the caller number, and the quoted caller name
when the first alternative of the last field matched (`none` when the
`,.*` alternative matched). -/
def clipMatchChars (s : List Char) : Option (List Char × Option (List Char)) :=
  (dropPrefixChars (['+', 'C', 'L', 'I', 'P', ':']) s).bind (fun s =>
    (parseQuotedNumber (s.dropWhile isSpaceChar)).bind (fun p =>
      (parseDigitsComma p.2).bind (fun s =>
        (parseFieldComma s).bind (fun s =>
          (parseFieldComma s).bind (fun s =>
            (parseNameTail s).map (fun g3 => (p.1, g3)))))))

/-- String form of `CLIP_REGEX.match`. -/
def clipMatch (s : String) : Option (String × Option String) :=
  match clipMatchChars s.data with
  | none => none
  | some (num, g3) => some (String.mk num, g3.map (fun x => String.mk x))

/-- `CMTI_REGEX = r'^\+CMTI:\s*([^,]+),(\d+)$'`: returns group 2 (the digit
string of the message index), the only group the source reads.  The line
matches exactly when something non-empty and comma-free stands before the
first comma and only digits (at least one) stand after it. -/
def cmtiMatchChars (s : List Char) : Option (List Char) :=
  match dropPrefixChars (['+', 'C', 'M', 'T', 'I', ':']) s with
  | none => none
  | some s =>
    let store := s.takeWhile (fun c => c != ',')
    let rest := s.dropWhile (fun c => c != ',')
    if store.isEmpty then none
    else
      match rest with
      | [] => none
      | _ :: ds =>
        if ds.isEmpty then none
        else if ds.all Char.isDigit then some ds else none

/-- String form of `CMTI_REGEX.match`, giving `group(2)` as a string. -/
def cmtiMatch (s : String) : Option String :=
  (cmtiMatchChars s.data).map (fun d => String.mk d)

/-- `CMGR_SM_DELIVER_REGEX = r'^\+CMGR:\s*"([^"]+)","([^"]+)",[^,]*,"([^"]+)"$'`:
returns (status, number, timestamp). -/
def cmgrMatchChars (s : List Char) : Option (List Char × List Char × List Char) :=
  match dropPrefixChars (['+', 'C', 'M', 'G', 'R', ':']) s with
  | none => none
  | some s =>
  let s := s.dropWhile isSpaceChar
  match expectChar ('\x22') s with
  | none => none
  | some s =>
  let st := s.takeWhile (fun x => x != '\x22')
  let s := s.dropWhile (fun x => x != '\x22')
  if st.isEmpty then none else
  match expectChar ('\x22') s with
  | none => none
  | some s =>
  match expectChar (',') s with
  | none => none
  | some s =>
  match expectChar ('\x22') s with
  | none => none
  | some s =>
  let num := s.takeWhile (fun x => x != '\x22')
  let s := s.dropWhile (fun x => x != '\x22')
  if num.isEmpty then none else
  match expectChar ('\x22') s with
  | none => none
  | some s =>
  match expectChar (',') s with
  | none => none
  | some s =>
  let s := s.dropWhile (fun c => c != ',')
  match expectChar (',') s with
  | none => none
  | some s =>
  match expectChar ('\x22') s with
  | none => none
  | some s =>
  let tm := s.takeWhile (fun x => x != '\x22')
  let s2 := s.dropWhile (fun x => x != '\x22')
  if tm.isEmpty then none
  else if s2 = ['\x22'] then some (st, num, tm) else none

/-- String form of `CMGR_SM_DELIVER_REGEX.match`. -/
def cmgrMatch (s : String) : Option (String × String × String) :=
  match cmgrMatchChars s.data with
  | none => none
  | some (st, num, tm) => some (String.mk st, String.mk num, String.mk tm)

/-- `GsmModem.write` for `waitForResponse=True`, as a function of the response
lines the transport delivered (`SerialComms.write`'s return value, never empty:
the wait ends only when the terminal status line arrives).  The source reads
`responseLines[-1]`, raises `CommandError(errorType, int(errorCode))` when the
status line both contains `ERROR` and matches `CM_ERROR_REGEX`, a bare
`CommandError()` when it contains `ERROR` without matching, and otherwise
returns the lines unchanged; with `parseError=False` the lines are always
returned unchanged. -/
def writeResult (responseLines : List String) (parseError : Bool) :
    Except CommandError (List String) :=
  let cmdStatusLine := responseLines.getLastD ("")
  if parseError && containsStr cmdStatusLine ("ERROR") then
    match cmErrorMatch cmdStatusLine with
    | some (k, c) => .error (.typed k c)
    | none => .error .generic
  else .ok responseLines

/-- `GsmModem.signalStrength`: sends `AT+CSQ` (via `respond`, the modem's
response to each command written), parses the first response line with
`CSQ_REGEX`, maps a parsed 99 to -1, and raises a bare `CommandError()` when
the line does not match. -/
def signalStrength (respond : String → List String) : Except CommandError Int :=
  match writeResult (respond ("AT+CSQ")) true with
  | .error e => .error e
  | .ok lines =>
    match csqMatch (lines.headD ("")) with
    | some ss => .ok (if ss = 99 then (-1 : Int) else (ss : Int))
    | none => .error .generic

/-- Failure of `GsmModem.waitForNetworkCoverage`: either the timeout timer
fired, or a `CommandError` escaped from `signalStrength`. -/
inductive WaitFailure where
  | timeout
  | cmdErr (e : CommandError)
deriving DecidableEq

/-- `GsmModem.waitForNetworkCoverage` with a timeout supplied.  `responds i`
is the modem's response function for the i-th polling iteration; `checks` is
the number of times the loop observes `block[0]` still true before the
`threading.Timer` flips it (the `while ... else` construct raises
`TimeoutException` once the flag is observed false).  The loop body is the
source's `ss = self.signalStrength; if ss: return ss` — Python truthiness, so
any non-zero value (including -1) is returned. -/
def waitForNetworkCoverage (responds : Nat → String → List String) :
    Nat → Nat → Except WaitFailure Int
  | 0, _ => .error .timeout
  | checks + 1, i =>
    match signalStrength (responds i) with
    | .error e => .error (.cmdErr e)
    | .ok ss => if ss ≠ 0 then .ok ss else waitForNetworkCoverage responds checks (i + 1)

/-- `ReceivedSms` (which extends `Sms{number, text}` with status and time). -/
structure ReceivedSms where
  status : String
  number : String
  time : String
  text : String
deriving DecidableEq

/-- Observable effect of the SMS notification handler: a command written to
the modem, or an invocation of the received-SMS delivery callback. -/
inductive SmsEvent where
  | cmd (c : String)
  | deliver (sms : ReceivedSms)
deriving DecidableEq

/-- `GsmModem._readStoredSmsMessage`: writes `AT+CMGR=<index>`, parses the
header line with `CMGR_SM_DELIVER_REGEX` (a bare `CommandError()` when it
does not match), and joins `msgData[1:-1]` — every returned line except the
header and the trailing status line — with newlines to form the body. -/
def readStoredSmsMessage (respond : String → List String) (msgIndex : String) :
    Except CommandError ReceivedSms :=
  match writeResult (respond (("AT+CMGR=") ++ msgIndex)) true with
  | .error e => .error e
  | .ok msgData =>
    match cmgrMatch (msgData.headD ("")) with
    | none => .error .generic
    | some (st, num, tm) =>
      .ok { status := st, number := num, time := tm,
            text := String.intercalate ("\n") ((msgData.drop 1).dropLast) }

/-- `GsmModem._handleSmsReceived`: matches the notification line with
`CMTI_REGEX`; on a match it reads the stored message at the captured index,
deletes it with `AT+CMGD=<index>` (`_deleteStoredMessage`), and only then
invokes the delivery callback.  On no match it falls off the end of the
function: no command, no callback, no exception.  Returns the ordered event
trace and the error that escaped the handler, if any. -/
def handleSmsReceived (respond : String → List String) (line : String) :
    List SmsEvent × Option CommandError :=
  match cmtiMatch line with
  | none => ([], none)
  | some idx =>
    let readCmd := ("AT+CMGR=") ++ idx
    match readStoredSmsMessage respond idx with
    | .error e => ([.cmd readCmd], some e)
    | .ok sms =>
      let delCmd := ("AT+CMGD=") ++ idx
      match writeResult (respond delCmd) true with
      | .error e => ([.cmd readCmd, .cmd delCmd], some e)
      | .ok _ => ([.cmd readCmd, .cmd delCmd, .deliver sms], none)

/-- Classification done by `__threadedHandleModemNotification` on the first
line of an unsolicited notification group. -/
inductive NotifKind where
  | ring
  | sms
  | other
deriving DecidableEq

/-- First-line classification: `'RING' in firstLine` → incoming call;
`firstLine.startswith('+CMTI')` → new SMS; otherwise logged and dropped. -/
def classifyNotification (firstLine : String) : NotifKind :=
  if containsStr firstLine ("RING") then .ring
  else if startsWithChars (['+', 'C', 'M', 'T', 'I']) firstLine.data then .sms
  else .other

/-- `IncomingCall`: caller number (absent when caller ID was unavailable),
type-of-number, caller name, call type, the ringing/answered flags and the
ring count.  A new call starts `ringing=True, answered=False, ringCount=1`;
state RINGING is `ringing ∧ ¬answered`, ANSWERED is `answered`, ENDED is
`¬ringing ∧ ¬answered`. -/
structure IncomingCall where
  number : Option String
  ton : Option Nat
  callerName : Option String
  type : Option String
  ringing : Bool
  answered : Bool
  ringCount : Nat
deriving DecidableEq

/-- The modem's registry of active calls: `__init__` creates it as
`self.activeCalls`, a `WeakValueDictionary` keyed by caller number (`None` —
here `none` — for an unknown caller).  Note that `_handleIncomingCall`
instead reads `self._activeCalls`, an attribute that no code of the class
ever assigns (and the serial transport base class, external per its
contract, only provides the line-level channel), and `IncomingCall.hangup`,
the one method that touches `activeCalls`, itself crashes before reaching
it; so at runtime the registry stays the empty dict made at construction. -/
abbrev CallRegistry := List (Option String × IncomingCall)

/-- Python runtime errors raised by the call-handling code itself, as
opposed to modem `CommandError`s: `AttributeError` from reading an
attribute that was never assigned, `IndexError` from indexing past the end
of a sequence. -/
inductive PyError where
  | attributeError
  | indexError
deriving DecidableEq

/-- `ringLine.split(' ', 1)[1]`: everything after the first space; `none` when
the line holds no space (Python raises `IndexError` there). -/
def splitCallType (s : String) : Option String :=
  match s.data.dropWhile (fun c => c != ' ') with
  | [] => none
  | _ :: t => some (String.mk t)

/-- Caller information resolved from the `+CLIP` line by
`_handleIncomingCall` (lines 180-191 of the source).  `tonBound` records
whether the source's local variable `ton` was assigned on the taken branch:
in the branch where `CLIP_REGEX` matched, the source never assigns `ton`
(were execution ever to reach the `IncomingCall` constructor, that would
raise `NameError` — in fact the handler crashes earlier, at the registry
lookup); in every other branch the source runs
`callerNumber = ton = callerName = None`. -/
structure CallerId where
  number : Option String
  ton : Option Nat
  name : Option String
  tonBound : Bool
deriving DecidableEq

/-- Parsing of one `+CLIP` line: on a `CLIP_REGEX` match, group 1 is the
number and group 3 the name, with an empty captured name normalized to
absent (`if callerName != None and len(callerName) == 0: callerName = None`);
on no match, number, ton and name are all set to `None`. -/
def parseCallerId (line : String) : CallerId :=
  match clipMatch line with
  | some (num, g3) =>
    let nm : Option String :=
      match g3 with
      | some s => if s.length = 0 then none else some s
      | none => none
    { number := some num, ton := none, name := nm, tonBound := false }
  | none => { number := none, ton := none, name := none, tonBound := true }

/-- Caller resolution of `_handleIncomingCall`: the `+CLIP` line (the next
line after the ring line) is consulted only when calling line identification
is enabled and such a line is present; otherwise number, ton and name are all
`None`. -/
def resolveCaller (clipEnabled : Bool) (rest : List String) : CallerId :=
  if clipEnabled && !rest.isEmpty then parseCallerId (rest.headD (""))
  else { number := none, ton := none, name := none, tonBound := true }

/-- `GsmModem._handleIncomingCall`: pops the ring line (`IndexError` on an
empty line group), takes the call type as the token after the first space
when extended indication is enabled (`IndexError` from `split` when the ring
line has no space), and resolves the caller from the `+CLIP` line (lines
180-191).  It then runs `if callerNumber in self._activeCalls:` (line 193) —
but no code ever assigns `_activeCalls` (`__init__` creates the registry as
`activeCalls`), so this lookup raises `AttributeError` on every ring
notification, before any registry read or write: no ring count is ever
incremented, no call record is ever inserted, and `incomingCallCallback` is
never invoked.  The dedup/insert/callback code of lines 193-199 is
unreachable. -/
def handleIncomingCall (clipEnabled extEnabled : Bool) (lines : List String)
    (_reg : CallRegistry) : Except PyError (CallRegistry × IncomingCall) :=
  match lines with
  | [] => .error .indexError
  | ringLine :: rest =>
    let callTypeStep : Option (Option String) :=
      if extEnabled then (splitCallType ringLine).map (fun t => some t) else some none
    match callTypeStep with
    | none => .error .indexError
    | some _callType =>
      let _info := resolveCaller clipEnabled rest
      .error .attributeError

/-- `IncomingCall.sendDtmfTone`: when the call is answered, writes one
command — the tones joined with `;+VTS=` when more than one, the tone string
directly otherwise — and returns it; when not answered (still ringing, or
already ended) it raises `InvalidStateException` before any write. -/
def sendDtmfTone (call : IncomingCall) (tones : String) :
    Except InvalidStateException String :=
  if call.answered then
    if tones.length > 1 then
      .ok (("AT+VTS=") ++ String.intercalate (";+VTS=") (tones.data.map (fun c => String.mk [c])))
    else
      .ok (("AT+VTS=") ++ tones)
  else
    .error { msg := ("Call is not active (it has not yet been answered, or it has ended).") }

/-- `IncomingCall.hangup`: its first statement is `self.write('ATH')` (line
292), but `IncomingCall` defines no `write` method — `answer` and
`sendDtmfTone` go through `self._gsmModem.write`, and the class inherits
only from `object` — so every call raises `AttributeError` there, before
the flag clears of lines 293-294 and the registry deletion of lines
295-296: `ATH` is never written, the call's state never changes, and the
registry entry is never removed. -/
def hangup (_call : IncomingCall) (_reg : CallRegistry) :
    Except PyError (IncomingCall × CallRegistry × List String) :=
  .error .attributeError

/-- Outcome of `GsmModem.connect` bring-up: the two capability flags
(`_callingLineIdentification`, `_extendedIncomingCallIndication`) and the
commands written, in order. -/
structure BringUp where
  clipFlag : Bool
  crcFlag : Bool
  sent : List String
deriving DecidableEq

/-- Bring-up command sequence when `AT+CLIP=1` failed (so `AT+CRC=1` is
skipped). -/
def bringUpNoCRC : List String :=
  [("ATZ"), ("ATE0"), ("AT+CFUN=1"), ("AT+CMEE=1"), ("AT+WIND=0"), ("AT+CMGF=1"),
   ("AT+CSMP=49,167"), ("AT+CPMS=\"SM\",\"SM\",\"SR\""), ("AT+CNMI=2,1,0,2"),
   ("AT+CLIP=1"), ("AT+CVHU=0")]

/-- Bring-up command sequence when `AT+CLIP=1` succeeded. -/
def bringUpWithCRC : List String :=
  [("ATZ"), ("ATE0"), ("AT+CFUN=1"), ("AT+CMEE=1"), ("AT+WIND=0"), ("AT+CMGF=1"),
   ("AT+CSMP=49,167"), ("AT+CPMS=\"SM\",\"SM\",\"SR\""), ("AT+CNMI=2,1,0,2"),
   ("AT+CLIP=1"), ("AT+CRC=1"), ("AT+CVHU=0")]

/-- `GsmModem.connect`: the ordered bring-up sequence.  `fails c` is the
`CommandError` raised by `self.write(c)`, when any (`none` = the command
succeeded).  `AT+WIND=0` is written with `parseError=False` and can never
raise.  `AT+CLIP=1` is guarded: on failure the calling-line-identification
flag is left `False` and `AT+CRC=1` is never written; on success the flag is
`True` and `AT+CRC=1` is attempted, its failure only leaving the extended
indication flag `False`.  Every other command propagates its error. -/
def connect (fails : String → Option CommandError) : Except CommandError BringUp :=
  match fails ("ATZ") with
  | some e => .error e
  | none =>
  match fails ("ATE0") with
  | some e => .error e
  | none =>
  match fails ("AT+CFUN=1") with
  | some e => .error e
  | none =>
  match fails ("AT+CMEE=1") with
  | some e => .error e
  | none =>
  match fails ("AT+CMGF=1") with
  | some e => .error e
  | none =>
  match fails ("AT+CSMP=49,167") with
  | some e => .error e
  | none =>
  match fails ("AT+CPMS=\"SM\",\"SM\",\"SR\"") with
  | some e => .error e
  | none =>
  match fails ("AT+CNMI=2,1,0,2") with
  | some e => .error e
  | none =>
  match fails ("AT+CLIP=1") with
  | some _ =>
    (match fails ("AT+CVHU=0") with
     | some e => .error e
     | none => .ok { clipFlag := false, crcFlag := false, sent := bringUpNoCRC })
  | none =>
    match fails ("AT+CRC=1") with
    | some _ =>
      (match fails ("AT+CVHU=0") with
       | some e => .error e
       | none => .ok { clipFlag := true, crcFlag := false, sent := bringUpWithCRC })
    | none =>
      match fails ("AT+CVHU=0") with
      | some e => .error e
      | none => .ok { clipFlag := true, crcFlag := true, sent := bringUpWithCRC }

/-! Theorems -/

/-- C1: with `waitForResponse` true and `parseErrors` true, a final response
line containing `ERROR` that matches `+(CME|CMS) ERROR: <digits>` makes the
command fail with a `CommandError` of the matched kind and parsed code, and
one containing `ERROR` without that structured payload makes it fail with a
bare `CommandError`; with `parseErrors` false the response lines, error line
included, are returned unchanged and nothing is raised. -/
theorem write_error_classification :
    ∀ (lines : List String), lines ≠ [] →
      (writeResult lines false = .ok lines)
      ∧ (containsStr (lines.getLastD ("")) ("ERROR") = true →
          (∀ k c, cmErrorMatch (lines.getLastD ("")) = some (k, c) →
              writeResult lines true = .error (.typed k c))
          ∧ (cmErrorMatch (lines.getLastD ("")) = none →
              writeResult lines true = .error .generic)) := by
  intro lines _
  refine ⟨by simp [writeResult], fun hErr => ⟨fun k c hm => ?_, fun hm => ?_⟩⟩
  · simp_all [writeResult]
  · simp_all [writeResult]

/-- C1 witness: a `+CME ERROR: 10` status line raises `CommandError(CME, 10)`
under `parseError=True`, is returned unchanged under `parseError=False`, and
a bare `ERROR` line raises the bare `CommandError()`. -/
theorem write_error_classification_witness :
    writeResult [("+CME ERROR: 10")] false = .ok [("+CME ERROR: 10")]
    ∧ writeResult [("+CME ERROR: 10")] true = .error (.typed .CME 10)
    ∧ writeResult [("ERROR")] true = .error .generic := by
  have h1 := write_error_classification [("+CME ERROR: 10")] (by decide)
  have h2 := write_error_classification [("ERROR")] (by decide)
  exact ⟨h1.1, (h1.2 (by decide)).1 .CME 10 (by decide), (h2.2 (by decide)).2 (by decide)⟩

/-- C5: the source's own docstring promises to block "until the modem is
registered with the network and the signal strength is greater than 0", but
the loop body `ss = self.signalStrength; if ss: return ss` uses Python
truthiness, and -1 (the "unknown" value produced from a parsed 99) is truthy:
polling a modem that answers `+CSQ: 99,99` returns -1 on the first
iteration.  A zero reading does loop, and an expired countdown does raise
`TimeoutException`. -/
theorem waitForNetworkCoverage_unknown_bug :
    waitForNetworkCoverage (fun _ _ => [("+CSQ: 99,99"), ("OK")]) 5 0 = .ok (-1)
    ∧ signalStrength (fun _ => [("+CSQ: 99,99"), ("OK")]) = .ok (-1)
    ∧ waitForNetworkCoverage (fun _ _ => [("+CSQ: 0,0"), ("OK")]) 3 0 = .error .timeout :=
  ⟨rfl, rfl, rfl⟩

/-- C6: `signalStrength` sends `AT+CSQ` and parses the first response line
with `+CSQ: <digits>,`: a parsed 99 is returned as -1, a parsed value in
0-31 is returned unchanged, and a non-matching first line raises the bare
`CommandError()`. -/
theorem signalStrength_parsing :
    ∀ (respond : String → List String),
      respond ("AT+CSQ") ≠ [] →
      containsStr ((respond ("AT+CSQ")).getLastD ("")) ("ERROR") = false →
      ((csqMatch ((respond ("AT+CSQ")).headD ("")) = some 99 →
          signalStrength respond = .ok (-1))
       ∧ (∀ v : Nat, v ≤ 31 → csqMatch ((respond ("AT+CSQ")).headD ("")) = some v →
          signalStrength respond = .ok (v : Int))
       ∧ (csqMatch ((respond ("AT+CSQ")).headD ("")) = none →
          signalStrength respond = .error .generic)) := by
  intro respond _ hNoErr
  refine ⟨fun hm => ?_, fun v hv hm => ?_, fun hm => ?_⟩
  · simp_all [signalStrength, writeResult]
  · have hne : ¬ v = 99 := by omega
    simp_all [signalStrength, writeResult]
  · simp_all [signalStrength, writeResult]

/-- C6 witness: the spec's own scenario — responding `+CSQ: 21,99` then `OK`
makes `signalStrength` return 21. -/
theorem signalStrength_parsing_witness :
    signalStrength (fun _ => [("+CSQ: 21,99"), ("OK")]) = .ok 21 := by
  have h := signalStrength_parsing (fun _ => [("+CSQ: 21,99"), ("OK")])
    (by decide) (by decide)
  exact h.2.1 21 (by decide) (by decide)

/-- C8: `sendDtmfTone` on a call that is not answered (still ringing, or
already ended) raises `InvalidStateException` — not `CommandError` — and
writes nothing (the returned command string exists only in the `.ok` case);
on an answered call a tone string of more than one character is written as a
single command with the tones joined by `;+VTS=`, and a tone string of at
most one character is written directly as `AT+VTS=<tones>`. -/
theorem sendDtmfTone_behavior :
    ∀ (call : IncomingCall) (tones : String),
      (call.answered = false →
        sendDtmfTone call tones
          = .error { msg := ("Call is not active (it has not yet been answered, or it has ended).") })
      ∧ (call.answered = true → tones.length > 1 →
        sendDtmfTone call tones
          = .ok (("AT+VTS=") ++ String.intercalate (";+VTS=")
              (tones.data.map (fun c => String.mk [c]))))
      ∧ (call.answered = true → tones.length ≤ 1 →
        sendDtmfTone call tones = .ok (("AT+VTS=") ++ tones)) := by
  intro call tones
  refine ⟨fun h => ?_, fun h hl => ?_, fun h hl => ?_⟩
  · simp [sendDtmfTone, h]
  · simp [sendDtmfTone, h, hl]
  · have hn : ¬ tones.length > 1 := by omega
    simp [sendDtmfTone, h, hn]

/-- C8 witness: a ringing (unanswered) call rejects the tone with
`InvalidStateException`; an answered call sends "123" as
`AT+VTS=1;+VTS=2;+VTS=3` and "5" as `AT+VTS=5`. -/
theorem sendDtmfTone_behavior_witness :
    sendDtmfTone { number := none, ton := none, callerName := none, type := none,
                   ringing := true, answered := false, ringCount := 1 } ("1")
      = .error { msg := ("Call is not active (it has not yet been answered, or it has ended).") }
    ∧ sendDtmfTone { number := none, ton := none, callerName := none, type := none,
                     ringing := false, answered := true, ringCount := 1 } ("123")
      = .ok ("AT+VTS=1;+VTS=2;+VTS=3")
    ∧ sendDtmfTone { number := none, ton := none, callerName := none, type := none,
                     ringing := false, answered := true, ringCount := 1 } ("5")
      = .ok ("AT+VTS=5") := by
  have h1 := sendDtmfTone_behavior
    { number := none, ton := none, callerName := none, type := none,
      ringing := true, answered := false, ringCount := 1 } ("1")
  have h2 := sendDtmfTone_behavior
    { number := none, ton := none, callerName := none, type := none,
      ringing := false, answered := true, ringCount := 1 } ("123")
  have h3 := sendDtmfTone_behavior
    { number := none, ton := none, callerName := none, type := none,
      ringing := false, answered := true, ringCount := 1 } ("5")
  exact ⟨h1.1 rfl, h2.2.1 rfl (by decide), h3.2.2 rfl (by decide)⟩

/-- C10 counterexample: the line `+CMTI: broken` is classified as an SMS
notification (it starts with `+CMTI`) but does not match the full
`+CMTI: <store>,<index>` grammar, and the handler silently ignores it —
no command is issued, no callback is invoked, and no error is raised (the
`if cmtiMatch:` of `_handleSmsReceived` has no else branch), contradicting
the claim that such a line is treated as a logged `CommandError` and never
silently ignored. -/
theorem malformed_cmti_silent_cex :
    classifyNotification ("+CMTI: broken") = .sms
    ∧ handleSmsReceived (fun _ => [("OK")]) ("+CMTI: broken") = ([], none) :=
  ⟨rfl, rfl⟩

/-- C10 amended: a notification line starting with `+CMTI` that does not
match the full `+CMTI: <store>,<index>` grammar is silently ignored by
`_handleSmsReceived`: it returns having issued no command, invoked no
callback and raised no error (the handler only runs its unconditional entry
trace print, and logs nothing). -/
theorem malformed_cmti_ignored :
    ∀ (respond : String → List String) (line : String),
      cmtiMatch line = none →
      handleSmsReceived respond line = ([], none) := by
  intro respond line h
  simp [handleSmsReceived, h]

/-- C10 witness: another malformed `+CMTI` line (non-digit index field) is
silently ignored. -/
theorem malformed_cmti_ignored_witness :
    handleSmsReceived (fun _ => [("OK")]) ("+CMTI: nocomma,,") = ([], none) :=
  malformed_cmti_ignored _ _ (by decide)

/-- The modem behaviour of the spec's end-to-end SMS scenario: the read of
index 4 returns the `+CMGR` header, the body line `Hello` and the status
line `OK`; every other command (the delete included) returns `OK`. -/
def smsScenarioRespond : String → List String := fun c =>
  if c = ("AT+CMGR=4") then
    [("+CMGR: \"REC UNREAD\",\"+12025550123\",,\"23/01/01,12:00:00+02\""),
     ("Hello"), ("OK")]
  else [("OK")]

/-- C2: the notification `+CMTI: "SM",4` makes the pipeline issue
`AT+CMGR=4`, assemble `ReceivedSms{REC UNREAD, +12025550123,
23/01/01,12:00:00+02, Hello}` and issue `AT+CMGD=4` strictly before the
delivery callback runs (the event trace is ordered); and in general the
message body of a read is all returned lines except the header and the
trailing status line, rejoined with line breaks. -/
theorem sms_pipeline_scenario :
    handleSmsReceived smsScenarioRespond ("+CMTI: \"SM\",4")
      = ([.cmd ("AT+CMGR=4"), .cmd ("AT+CMGD=4"),
          .deliver { status := ("REC UNREAD"), number := ("+12025550123"),
                     time := ("23/01/01,12:00:00+02"), text := ("Hello") }], none)
    ∧ ∀ (respond : String → List String) (idx st num tm : String),
        containsStr ((respond (("AT+CMGR=") ++ idx)).getLastD ("")) ("ERROR") = false →
        cmgrMatch ((respond (("AT+CMGR=") ++ idx)).headD ("")) = some (st, num, tm) →
        readStoredSmsMessage respond idx
          = .ok { status := st, number := num, time := tm,
                  text := String.intercalate ("\n")
                    (((respond (("AT+CMGR=") ++ idx)).drop 1).dropLast) } := by
  constructor
  · rfl
  · intro respond idx st num tm hNoErr hm
    simp_all [readStoredSmsMessage, writeResult]

/-- C2 witness: the general body rule instantiated at the scenario's read
response gives exactly the body `Hello`. -/
theorem sms_pipeline_scenario_witness :
    readStoredSmsMessage smsScenarioRespond ("4")
      = .ok { status := ("REC UNREAD"), number := ("+12025550123"),
              time := ("23/01/01,12:00:00+02"), text := ("Hello") } := by
  have h := (sms_pipeline_scenario).2 smsScenarioRespond ("4") ("REC UNREAD")
    ("+12025550123") ("23/01/01,12:00:00+02") (by decide) (by decide)
  exact h

/-- A ringing call with its entry in the registry, as the C4 counterexample
scenario requires. -/
def ringingCall : IncomingCall :=
  { number := some ("5551234"), ton := none, callerName := none, type := none,
    ringing := true, answered := false, ringCount := 1 }

/-- C4 counterexample: on a call in state RINGING whose entry is in the
registry, `hangup()` does not send `ATH`, does not transition the call to
ENDED, and does not remove the entry: it raises `AttributeError` at
`self.write('ATH')`, because `IncomingCall` defines no `write` method (its
other methods go through `self._gsmModem.write`). -/
theorem hangup_attribute_error_cex :
    ringingCall.ringing = true ∧ ringingCall.answered = false
    ∧ hangup ringingCall [(some ("5551234"), ringingCall)] = .error .attributeError :=
  ⟨rfl, rfl, rfl⟩

/-- C4 amended: for every call — RINGING, ANSWERED or ENDED — and every
registry, `hangup()` raises `AttributeError` before any effect: `ATH` is
never written, the call's state never changes, and the registry entry is
never removed.  (In particular two consecutive `hangup()` calls both raise,
which is the only sense in which repeating it changes nothing.) -/
theorem hangup_always_raises :
    ∀ (call : IncomingCall) (reg : CallRegistry),
      hangup call reg = .error .attributeError :=
  fun _ _ => rfl

/-- A live RINGING call from `+123`, registered under its number, as the C3
counterexample scenario requires. -/
def knownCall : IncomingCall :=
  { number := some ("+123"), ton := none, callerName := some ("Bob"), type := none,
    ringing := true, answered := false, ringCount := 1 }

/-- C3 counterexample: a ring notification whose resolved caller number
(`+123`, from the `+CLIP` line) equals the number of a live call in the
registry does not increment that call's ring count — the handler raises
`AttributeError` at the `self._activeCalls` membership test (line 193; the
attribute is never assigned, the registry having been created as
`activeCalls`), so neither the claimed increment nor any record creation
happens. -/
theorem ring_increment_never_happens_cex :
    (parseCallerId ("+CLIP: \"+123\",145,,,\"Bob\"")).number = some ("+123")
    ∧ knownCall.number = some ("+123") ∧ knownCall.ringCount = 1
    ∧ handleIncomingCall true false [("RING"), ("+CLIP: \"+123\",145,,,\"Bob\"")]
        [(some ("+123"), knownCall)] = .error .attributeError :=
  ⟨rfl, rfl, rfl, rfl⟩

/-- C3 amended: every incoming-ring notification crashes in the handler with
`AttributeError` at the `self._activeCalls` membership test (reached right
after caller resolution, whenever popping the ring line and, with extended
indication on, splitting it did not already raise `IndexError`): the handler
never succeeds, so no ring count is ever incremented, no call record is ever
created, the registry is never read or written, and the callback is never
invoked. -/
theorem ring_handler_attribute_error :
    ∀ (clipE extE : Bool) (lines : List String) (reg : CallRegistry),
      (∀ p, handleIncomingCall clipE extE lines reg ≠ .ok p)
      ∧ (lines ≠ [] →
         (extE = true → (splitCallType (lines.headD (""))).isSome = true) →
         handleIncomingCall clipE extE lines reg = .error .attributeError) := by
  intro clipE extE lines reg
  cases lines with
  | nil =>
    refine ⟨fun p h => ?_, fun hne _ => absurd rfl hne⟩
    simp [handleIncomingCall] at h
  | cons ringLine rest =>
    constructor
    · intro p h
      simp only [handleIncomingCall] at h
      split at h <;> simp_all
    · intro _ hsplit
      simp only [handleIncomingCall]
      cases hextE : extE with
      | false => simp
      | true =>
        rw [hextE] at hsplit
        obtain ⟨t, ht⟩ := Option.isSome_iff_exists.mp (by simpa using hsplit rfl)
        simp [ht]

/-- C3 witness: the amended theorem applied to a bare anonymous `RING` with
an empty registry — the handler fails with `AttributeError` instead of
creating a record. -/
theorem ring_handler_attribute_error_witness :
    handleIncomingCall false false [("RING")] [] = .error .attributeError :=
  (ring_handler_attribute_error false false [("RING")] []).2 (by decide)
    (fun h => absurd h (by decide))

/-- Modem behaviour where only `AT+CLIP=1` fails. -/
def clipOnlyFails : String → Option CommandError := fun c =>
  if c = ("AT+CLIP=1") then some .generic else none

/-- C7: when `AT+CLIP=1` fails with a `CommandError` and the rest of
bring-up succeeds, `connect` completes without raising, the calling line
identification flag ends up disabled and `AT+CRC=1` is never written; in
general, whenever `AT+CLIP=1` failed, a completed bring-up has the flag
disabled and never wrote `AT+CRC=1`; and a failure of `AT+CRC=1` alone only
disables the extended indication flag, with bring-up still completing and
the calling line identification flag enabled. -/
theorem connect_clip_soft_fail :
    (∀ (fails : String → Option CommandError) (e : CommandError),
       fails ("AT+CLIP=1") = some e →
       (∀ c, c ≠ ("AT+CLIP=1") → fails c = none) →
       connect fails = .ok { clipFlag := false, crcFlag := false, sent := bringUpNoCRC }
       ∧ ("AT+CRC=1") ∉ bringUpNoCRC)
    ∧ (∀ (fails : String → Option CommandError) (r : BringUp) (e : CommandError),
       fails ("AT+CLIP=1") = some e → connect fails = .ok r →
       r.clipFlag = false ∧ ("AT+CRC=1") ∉ r.sent)
    ∧ (∀ (fails : String → Option CommandError) (e : CommandError),
       fails ("AT+CRC=1") = some e →
       (∀ c, c ≠ ("AT+CRC=1") → fails c = none) →
       connect fails = .ok { clipFlag := true, crcFlag := false, sent := bringUpWithCRC }) := by
  refine ⟨?_, ?_, ?_⟩
  · intro fails e h1 h2
    have hz := h2 ("ATZ") (by decide)
    have he0 := h2 ("ATE0") (by decide)
    have hcf := h2 ("AT+CFUN=1") (by decide)
    have hcm := h2 ("AT+CMEE=1") (by decide)
    have hmg := h2 ("AT+CMGF=1") (by decide)
    have hcs := h2 ("AT+CSMP=49,167") (by decide)
    have hcp := h2 ("AT+CPMS=\"SM\",\"SM\",\"SR\"") (by decide)
    have hcn := h2 ("AT+CNMI=2,1,0,2") (by decide)
    have hcv := h2 ("AT+CVHU=0") (by decide)
    refine ⟨?_, by decide⟩
    simp [connect, hz, he0, hcf, hcm, hmg, hcs, hcp, hcn, h1, hcv]
  · intro fails r e h1 h
    unfold connect at h
    simp only [h1] at h
    cases hz : fails ("ATZ") with
    | some e2 => rw [hz] at h; simp at h
    | none =>
    simp only [hz] at h
    cases he0 : fails ("ATE0") with
    | some e2 => rw [he0] at h; simp at h
    | none =>
    simp only [he0] at h
    cases hcf : fails ("AT+CFUN=1") with
    | some e2 => rw [hcf] at h; simp at h
    | none =>
    simp only [hcf] at h
    cases hcm : fails ("AT+CMEE=1") with
    | some e2 => rw [hcm] at h; simp at h
    | none =>
    simp only [hcm] at h
    cases hmg : fails ("AT+CMGF=1") with
    | some e2 => rw [hmg] at h; simp at h
    | none =>
    simp only [hmg] at h
    cases hcs : fails ("AT+CSMP=49,167") with
    | some e2 => rw [hcs] at h; simp at h
    | none =>
    simp only [hcs] at h
    cases hcp : fails ("AT+CPMS=\"SM\",\"SM\",\"SR\"") with
    | some e2 => rw [hcp] at h; simp at h
    | none =>
    simp only [hcp] at h
    cases hcn : fails ("AT+CNMI=2,1,0,2") with
    | some e2 => rw [hcn] at h; simp at h
    | none =>
    simp only [hcn] at h
    cases hcv : fails ("AT+CVHU=0") with
    | some e2 => rw [hcv] at h; simp at h
    | none =>
    simp only [hcv] at h
    injection h with h
    rw [← h]
    exact ⟨rfl, by decide⟩
  · intro fails e h1 h2
    have hz := h2 ("ATZ") (by decide)
    have he0 := h2 ("ATE0") (by decide)
    have hcf := h2 ("AT+CFUN=1") (by decide)
    have hcm := h2 ("AT+CMEE=1") (by decide)
    have hmg := h2 ("AT+CMGF=1") (by decide)
    have hcs := h2 ("AT+CSMP=49,167") (by decide)
    have hcp := h2 ("AT+CPMS=\"SM\",\"SM\",\"SR\"") (by decide)
    have hcn := h2 ("AT+CNMI=2,1,0,2") (by decide)
    have hcl := h2 ("AT+CLIP=1") (by decide)
    have hcv := h2 ("AT+CVHU=0") (by decide)
    simp [connect, hz, he0, hcf, hcm, hmg, hcs, hcp, hcn, hcl, h1, hcv]

/-- C7 witness: the bring-up scenario where only `AT+CLIP=1` errors —
bring-up completes, both flags are disabled, and `AT+CRC=1` is not among
the written commands. -/
theorem connect_clip_soft_fail_witness :
    connect clipOnlyFails = .ok { clipFlag := false, crcFlag := false, sent := bringUpNoCRC }
    ∧ ("AT+CRC=1") ∉ bringUpNoCRC :=
  (connect_clip_soft_fail).1 clipOnlyFails .generic (by decide)
    (fun c hc => by simp [clipOnlyFails, hc])

/-- Consuming a literal prefix from an input that starts with it leaves the
rest. -/
theorem dropPrefixChars_append : ∀ (p s : List Char), dropPrefixChars p (p ++ s) = some s := by
  intro p s
  induction p with
  | nil => rfl
  | cons c cs ih => simp [dropPrefixChars, ih]

/-- `takeWhile` over a block that satisfies the predicate followed by a
stopping character takes exactly the block. -/
theorem takeWhile_append_stop {p : Char → Bool} :
    ∀ (xs : List Char) (y : Char) (ys : List Char),
      (∀ x ∈ xs, p x = true) → p y = false →
      (xs ++ y :: ys).takeWhile p = xs := by
  intro xs y ys hall hy
  induction xs with
  | nil => simp [List.takeWhile, hy]
  | cons a as ih =>
    have ha : p a = true := hall a (List.mem_cons_self a as)
    simp [List.takeWhile, ha, ih (fun x hx => hall x (List.mem_cons_of_mem a hx))]

/-- `dropWhile` over a block that satisfies the predicate followed by a
stopping character drops exactly the block. -/
theorem dropWhile_append_stop {p : Char → Bool} :
    ∀ (xs : List Char) (y : Char) (ys : List Char),
      (∀ x ∈ xs, p x = true) → p y = false →
      (xs ++ y :: ys).dropWhile p = y :: ys := by
  intro xs y ys hall hy
  induction xs with
  | nil => simp [List.dropWhile, hy]
  | cons a as ih =>
    have ha : p a = true := hall a (List.mem_cons_self a as)
    simp [List.dropWhile, ha, ih (fun x hx => hall x (List.mem_cons_of_mem a hx))]

/-- The quoted-number fragment consumes `"<plus?><digits>",` and captures
the number (leading `+` included). -/
theorem parseQuotedNumber_digits :
    ∀ (plus : Bool) (N rest : List Char), N ≠ [] → (∀ x ∈ N, Char.isDigit x = true) →
      parseQuotedNumber ('\x22' :: ((if plus then [('+' : Char)] else []) ++
          (N ++ ('\x22' :: ',' :: rest))))
        = some ((if plus then [('+' : Char)] else []) ++ N, rest) := by
  intro plus N rest hN hall
  obtain ⟨n0, N', rfl⟩ : ∃ a l, N = a :: l := by
    cases N with
    | nil => exact absurd rfl hN
    | cons a l => exact ⟨a, l, rfl⟩
  have htw : List.takeWhile Char.isDigit (n0 :: (N' ++ ('\x22' :: ',' :: rest)))
      = n0 :: N' := by
    have h := takeWhile_append_stop (p := Char.isDigit) (n0 :: N') ('\x22') (',' :: rest)
      hall (by decide)
    simpa using h
  have hdw : List.dropWhile Char.isDigit (n0 :: (N' ++ ('\x22' :: ',' :: rest)))
      = '\x22' :: ',' :: rest := by
    have h := dropWhile_append_stop (p := Char.isDigit) (n0 :: N') ('\x22') (',' :: rest)
      hall (by decide)
    simpa using h
  have h0 : n0.isDigit = true := hall n0 (List.mem_cons_self _ _)
  have hn0 : ¬ n0 = '+' := by
    intro he
    rw [he] at h0
    exact absurd h0 (by decide)
  cases plus with
  | false => simp [parseQuotedNumber, expectChar, splitPlus, hn0, h0, htw, hdw]
  | true => simp [parseQuotedNumber, expectChar, splitPlus, h0, htw, hdw]

/-- The type-of-number fragment consumes `<digits>,`. -/
theorem parseDigitsComma_digits :
    ∀ (T rest : List Char), T ≠ [] → (∀ x ∈ T, Char.isDigit x = true) →
      parseDigitsComma (T ++ (',' :: rest)) = some rest := by
  intro T rest hT hall
  obtain ⟨t0, T', rfl⟩ : ∃ a l, T = a :: l := by
    cases T with
    | nil => exact absurd rfl hT
    | cons a l => exact ⟨a, l, rfl⟩
  have htw : List.takeWhile Char.isDigit (t0 :: (T' ++ (',' :: rest))) = t0 :: T' := by
    have h := takeWhile_append_stop (p := Char.isDigit) (t0 :: T') (',') rest hall (by decide)
    simpa using h
  have hdw : List.dropWhile Char.isDigit (t0 :: (T' ++ (',' :: rest))) = ',' :: rest := by
    have h := dropWhile_append_stop (p := Char.isDigit) (t0 :: T') (',') rest hall (by decide)
    simpa using h
  have h0 : t0.isDigit = true := hall t0 (List.mem_cons_self _ _)
  simp [parseDigitsComma, expectChar, h0, htw, hdw]

/-- The ignored-field fragment consumes a comma-free block and the comma
after it. -/
theorem parseFieldComma_stop :
    ∀ (F rest : List Char), (∀ x ∈ F, (x != ',') = true) →
      parseFieldComma (F ++ (',' :: rest)) = some rest := by
  intro F rest hall
  have hdw := dropWhile_append_stop (p := fun c => c != ',') F (',') rest hall (by decide)
  simp [parseFieldComma, expectChar, hdw]

/-- A caller-ID line whose final quoted-name field is empty (`""`), built
from its free parts: the optional `+`, the number digits, the
type-of-number digits, and the two comma-free structural fields. -/
def mkClipEmptyName (plus : Bool) (numDigits tonDigits f1 f2 : List Char) : List Char :=
  ['+', 'C', 'L', 'I', 'P', ':'] ++
    (' ' :: '\x22' :: ((if plus then [('+' : Char)] else []) ++
      (numDigits ++ ('\x22' :: ',' :: (tonDigits ++ (',' :: (f1 ++ (',' :: (f2 ++
        ([',', '\x22', '\x22']))))))))))

/-- No caller-ID line with an empty quoted name matches `CLIP_REGEX`: the
`"([^"]+)"` alternative needs a non-empty name and the `,.*` alternative
needs a comma where the `""` stands. -/
theorem clipMatchChars_empty_name :
    ∀ (plus : Bool) (numDigits tonDigits f1 f2 : List Char),
      numDigits ≠ [] → numDigits.all Char.isDigit = true →
      tonDigits ≠ [] → tonDigits.all Char.isDigit = true →
      f1.all (fun c => c != ',') = true → f2.all (fun c => c != ',') = true →
      clipMatchChars (mkClipEmptyName plus numDigits tonDigits f1 f2) = none := by
  intro plus N T F1 F2 hN hNd hT hTd hF1 hF2
  have hNall : ∀ x ∈ N, Char.isDigit x = true := List.all_eq_true.mp hNd
  have hTall : ∀ x ∈ T, Char.isDigit x = true := List.all_eq_true.mp hTd
  have hF1all : ∀ x ∈ F1, (x != ',') = true := List.all_eq_true.mp hF1
  have hF2all : ∀ x ∈ F2, (x != ',') = true := List.all_eq_true.mp hF2
  have hsp : (' ' :: '\x22' :: ((if plus then [('+' : Char)] else []) ++
      (N ++ ('\x22' :: ',' :: (T ++ (',' :: (F1 ++ (',' :: (F2 ++
        ([',', '\x22', '\x22'])))))))))).dropWhile isSpaceChar
      = '\x22' :: ((if plus then [('+' : Char)] else []) ++
      (N ++ ('\x22' :: ',' :: (T ++ (',' :: (F1 ++ (',' :: (F2 ++
        ([',', '\x22', '\x22']))))))))) := by
    cases plus <;> rfl
  simp only [clipMatchChars, mkClipEmptyName, dropPrefixChars_append, Option.bind, hsp]
  rw [parseQuotedNumber_digits plus N _ hN hNall]
  simp only [Option.bind]
  rw [parseDigitsComma_digits T _ hT hTall]
  simp only [Option.bind]
  rw [parseFieldComma_stop F1 _ hF1all]
  simp only [Option.bind]
  rw [parseFieldComma_stop F2 _ hF2all]
  rfl

/-- C9: the parsed caller name is never the empty string; a `+CLIP` line
that does not match `CLIP_REGEX` yields number, type-of-number and name all
absent; a concrete line with an empty quoted name yields all three absent;
and in general every caller-ID line whose quoted name field is empty fails
the grammar (so by the second part all three fields come out absent). -/
theorem clip_empty_name_absent :
    (∀ line : String, (parseCallerId line).name ≠ some (""))
    ∧ (∀ line : String, clipMatch line = none →
        parseCallerId line
          = { number := none, ton := none, name := none, tonBound := true })
    ∧ parseCallerId ("+CLIP: \"+12025550123\",145,,,\"\"")
        = { number := none, ton := none, name := none, tonBound := true }
    ∧ (∀ (plus : Bool) (numDigits tonDigits f1 f2 : List Char),
        numDigits ≠ [] → numDigits.all Char.isDigit = true →
        tonDigits ≠ [] → tonDigits.all Char.isDigit = true →
        f1.all (fun c => c != ',') = true → f2.all (fun c => c != ',') = true →
        clipMatchChars (mkClipEmptyName plus numDigits tonDigits f1 f2) = none) := by
  refine ⟨?_, ?_, by decide, clipMatchChars_empty_name⟩
  · intro line
    cases h : clipMatch line with
    | none => simp [parseCallerId, h]
    | some p =>
      obtain ⟨num, g3⟩ := p
      cases g3 with
      | none => simp [parseCallerId, h]
      | some s =>
        by_cases hs : s.length = 0
        · simp [parseCallerId, h, hs]
        · simp only [parseCallerId, h, if_neg hs]
          intro he
          rw [Option.some_inj] at he
          exact hs (by rw [he]; rfl)
  · intro line h
    simp [parseCallerId, h]

/-- C9 witness: a line that is not a caller-ID line parses to all-absent
fields, and the empty-name family lemma applied to the number 7, type 1 and
empty structural fields. -/
theorem clip_empty_name_absent_witness :
    parseCallerId ("RING")
      = { number := none, ton := none, name := none, tonBound := true }
    ∧ clipMatchChars (mkClipEmptyName false [('7')] [('1')] [] []) = none := by
  refine ⟨(clip_empty_name_absent).2.1 ("RING") (by decide), ?_⟩
  exact (clip_empty_name_absent).2.2.2 false [('7')] [('1')] [] []
    (by decide) (by decide) (by decide) (by decide) (by decide) (by decide)

end GsmModem
